import Mathlib

/-!
Verification of the Python coroutine wrapper `src/coroutines/coroutine.py`.

The Python layer wraps an external shared library (`libcoroutines.so`,
built from this repository's assembly/C sources, which are not in `src/`).
We embed the Python layer faithfully and treat each library call as an
oracle `Lib : LibCall → GeneratorStruct → LibOutcome`: given the call made
and the descriptor memory at call time, the oracle reports the returned
`c_void_p` (or that a Python exception escaped) together with the
descriptor memory after the call — the C side holds a pointer to the
descriptor (passed by `ctypes.byref` on the first `next`) and the running
generator body may write through it (e.g. `example_generator`'s `finally`
block sets `dead`). Properties that depend on the behaviour of the missing
library code are proved under explicitly named assumptions modelled from
the spec.
-/

/-- A C pointer value as marshalled by ctypes; `0` is `NULL`
(which Python-side appears as `None` for a `c_void_p` result). -/
abbrev Ptr := Nat

/-- Marshalling of a Python-level argument (`None` or an `int`) to a
`c_void_p` parameter: `None` becomes `NULL`, and `ctypes.c_void_p(0)` is
also the `NULL` pointer. -/
def ptrOfPy : Option Nat → Ptr
  | none => 0
  | some a => a

/-- Unmarshalling of a `c_void_p` result (`restype = ctypes.c_void_p`):
`NULL` comes back to Python as `None`, anything else as an `int`. -/
def pyOfPtr (v : Ptr) : Option Nat :=
  if v = 0 then none else some v

/-- The `GeneratorStruct` ctypes structure (coroutine.py lines 11-19):
`fresh`, `dead`, `rsp`, `stack_base`, `func` (the 6-byte alignment padding
carries no data and is omitted). -/
structure GeneratorStruct where
  fresh : Bool
  dead : Bool
  rsp : Ptr
  stack_base : Ptr
  func : Ptr
deriving DecidableEq

/-- The two library entry points `Generator.next` can invoke:
`python_generator_next(&self, arg)` and `python_generator_yield(arg)`
(coroutine.py lines 75-79). -/
inductive LibCall where
  | generatorNext (genPtr : Ptr) (arg : Ptr)
  | generatorYield (arg : Ptr)
deriving DecidableEq

/-- Outcome of a library call: it either returns a `c_void_p` value or a
Python exception escapes the call; in both cases `mem` is the descriptor
memory after the call (the C side and generator body can write through the
descriptor pointer while the call runs). -/
inductive LibOutcome where
  | ret (v : Ptr) (mem : GeneratorStruct)
  | exn (mem : GeneratorStruct)
deriving DecidableEq

/-- The descriptor memory after a library call. -/
def LibOutcome.mem : LibOutcome → GeneratorStruct
  | .ret _ m => m
  | .exn m => m

/-- An oracle giving the behaviour of the external library. -/
abbrev Lib := LibCall → GeneratorStruct → LibOutcome

/-- The second argument of the first-call library invocation
(coroutine.py line 76): `ctypes.byref(self) if arg is None else
ctypes.c_void_p(arg)` — a pointer to the descriptor itself when no
argument is supplied. -/
def entryArg (selfPtr : Ptr) (arg : Option Nat) : Ptr :=
  match arg with
  | none => selfPtr
  | some a => a

/-- The library call `Generator.next` makes when the generator is not
dead (coroutine.py lines 72-79): a fresh generator gets
`python_generator_next(&self, &self if arg is None else c_void_p(arg))`,
otherwise `python_generator_yield(c_void_p(arg) if arg is not None else None)`. -/
def Generator.callOf (selfPtr : Ptr) (g : GeneratorStruct) (arg : Option Nat) : LibCall :=
  if g.fresh then .generatorNext selfPtr (entryArg selfPtr arg)
  else .generatorYield (ptrOfPy arg)

/-- What one `Generator.next` call produces: the descriptor after the
call, the Python-level return value, and the library call made (if any). -/
structure NextResult where
  gen : GeneratorStruct
  ret : Option Nat
  call : Option LibCall
deriving DecidableEq

/-- `Generator.next` (coroutine.py lines 66-84): if `dead`, return `None`
at once with no library call; otherwise make the library call selected by
`Generator.callOf` and return its value, and if a Python exception escapes
that call, set `dead := True` and return `None`. -/
def Generator.next (selfPtr : Ptr) (g : GeneratorStruct) (arg : Option Nat)
    (lib : Lib) : NextResult :=
  if g.dead then ⟨g, none, none⟩
  else
    match lib (Generator.callOf selfPtr g arg) g with
    | .ret v m => ⟨m, pyOfPtr v, some (Generator.callOf selfPtr g arg)⟩
    | .exn m => ⟨{ m with dead := true }, none, some (Generator.callOf selfPtr g arg)⟩

/-- What `Generator.__init__` produces: the initialised descriptor, the
byte size of the allocated stack buffer, and the library calls made during
construction. -/
structure CreateResult where
  gen : GeneratorStruct
  stackSize : Nat
  calls : List LibCall
deriving DecidableEq

/-- `Generator.__init__` (coroutine.py lines 48-64): sets `fresh = True`,
`dead = False`, stores the entry-function pointer, allocates a ctypes
buffer of `stack_size = 8192` bytes as the stack, sets `stack_base` to its
address and `rsp` to 0.  It makes no library call and does not invoke the
entry function. -/
def Generator.init (funcPtr : Ptr) (stackBase : Ptr) : CreateResult :=
  { gen := { fresh := true, dead := false, rsp := 0, stack_base := stackBase, func := funcPtr }
    stackSize := 8192
    calls := [] }

/-- `STACK_CAPACITY = 1024 * os.sysconf('SC_PAGE_SIZE')`
(coroutine.py line 45), as a function of the platform page size. -/
def STACK_CAPACITY (pageSize : Nat) : Nat := 1024 * pageSize

/-- A sequence of `Generator.next` calls: returns the final descriptor and
the list of (return value, library call made) per call. -/
def nextTrace (selfPtr : Ptr) (lib : Lib) :
    GeneratorStruct → List (Option Nat) → GeneratorStruct × List (Option Nat × Option LibCall)
  | g, [] => (g, [])
  | g, a :: args =>
    let r := Generator.next selfPtr g a lib
    let t := nextTrace selfPtr lib r.gen args
    (t.1, (r.ret, r.call) :: t.2)

/-- Whether a recorded library call is the entry-launching
`python_generator_next` call. -/
def isGenNext : Option LibCall → Bool
  | some (.generatorNext _ _) => true
  | _ => false

/-- Number of entry-launching `python_generator_next` calls in a trace. -/
def genNextCalls (l : List (Option Nat × Option LibCall)) : Nat :=
  l.countP fun rc => isGenNext rc.2

/-- Modelled from the spec: `python_generator_next` (missing from `src/`)
launches the entry function, so the descriptor it leaves behind is no
longer `Fresh` (spec section 4.2: `Fresh` transitions to `Running` via
`next` and never back). -/
def ClearsFresh (lib : Lib) : Prop :=
  ∀ p a m, ((lib (.generatorNext p a) m).mem).fresh = false

/-- Modelled from the spec: `python_generator_yield` (missing from `src/`)
resumes a saved context and does not make the generator fresh again (spec
section 4.2: state moves only between `Suspended`, `Running` and `Dead`
after the first resume). -/
def PreservesFresh (lib : Lib) : Prop :=
  ∀ a m, ((lib (.generatorYield a) m).mem).fresh = m.fresh

/-- One operation of the system acting on an existing descriptor:
a `Generator.next` call (coroutine.py lines 66-84, including its
exception handler's `self.dead = True`), the `finally` block of
`example_generator` writing `dead` through the descriptor pointer
(coroutine.py lines 111-117), and — modelled from the spec (the library
code is missing from `src/`) — the library writes during a switch: clearing
`fresh` on the first resume, setting `dead` when the entry function
returns, and saving the stack pointer into `rsp`. -/
inductive SysStep : GeneratorStruct → GeneratorStruct → Prop where
  | nextCall (selfPtr : Ptr) (arg : Option Nat) (lib : Lib) (g : GeneratorStruct) :
      SysStep g (Generator.next selfPtr g arg lib).gen
  | entryFinallyMarkDead (g : GeneratorStruct) : SysStep g { g with dead := true }
  | libClearFresh (g : GeneratorStruct) : SysStep g { g with fresh := false }
  | libFinishMarkDead (g : GeneratorStruct) : SysStep g { g with dead := true }
  | libSaveRsp (g : GeneratorStruct) (p : Ptr) : SysStep g { g with rsp := p }

/-! Concrete fixtures used by witnesses and counterexamples. -/

/-- A suspended-looking descriptor: not fresh, not dead. -/
def gSusp : GeneratorStruct := ⟨false, false, 0, 1000, 77⟩

/-- A fresh descriptor as produced by `Generator.__init__`. -/
def freshG : GeneratorStruct := ⟨true, false, 0, 1000, 77⟩

/-- A dead descriptor. -/
def gDeadC : GeneratorStruct := ⟨false, true, 0, 1000, 77⟩

/-- A well-behaved library: the first call clears `fresh` and yields 1,
later resumes yield 2 and leave the descriptor alone. -/
def libW : Lib := fun c m =>
  match c with
  | .generatorNext _ _ => .ret 1 { m with fresh := false }
  | .generatorYield _ => .ret 2 m

/-- A library whose calls return 7 and leave the descriptor alone. -/
def libRet7 : Lib := fun _ m => .ret 7 m

/-- A library whose calls return 9 and leave the descriptor alone. -/
def libEcho9 : Lib := fun _ m => .ret 9 m

/-- A library whose calls raise a Python exception. -/
def libRaise : Lib := fun _ m => .exn m

/-- A library call during which the generator body finishes: its cleanup
writes `dead := True` through the descriptor pointer (as
`example_generator`'s `finally` block does, coroutine.py lines 111-117)
and the call returns `NULL` normally. -/
def libFinish : Lib := fun _ m => .ret 0 { m with dead := true }

/-! Helper lemmas. -/

/-- A dead generator is left untouched by any sequence of `next` calls:
each call returns `None` with no library call, and the descriptor is
unchanged. -/
theorem nextTrace_dead (selfPtr : Ptr) (lib : Lib) (g : GeneratorStruct)
    (h : g.dead = true) :
    ∀ args, nextTrace selfPtr lib g args = (g, args.map fun _ => (none, none)) := by
  intro args
  induction args with
  | nil => rfl
  | cons a args ih =>
    simp only [nextTrace, Generator.next, h, if_pos]
    simp [ih]

/-- Counting entry launches one call at a time. -/
theorem genNextCalls_cons (rc : Option Nat × Option LibCall)
    (l : List (Option Nat × Option LibCall)) :
    genNextCalls (rc :: l) = genNextCalls l + (if isGenNext rc.2 then 1 else 0) :=
  List.countP_cons _ _ _

/-- Once a descriptor is no longer fresh, no `next` call in any following
sequence launches the entry function again (the resume path only ever
calls `python_generator_yield`), provided the library does not make the
descriptor fresh again. -/
theorem genNextCalls_zero_of_not_fresh (selfPtr : Ptr) (lib : Lib)
    (hp : PreservesFresh lib) :
    ∀ (args : List (Option Nat)) (g : GeneratorStruct), g.fresh = false →
      genNextCalls (nextTrace selfPtr lib g args).2 = 0 := by
  intro args
  induction args with
  | nil => intro g _; rfl
  | cons a args ih =>
    intro g hf
    by_cases hd : g.dead = true
    · have hnext : Generator.next selfPtr g a lib = ⟨g, none, none⟩ := by
        simp [Generator.next, hd]
      simp [nextTrace, hnext, genNextCalls_cons, isGenNext, ih g hf]
    · have hfmem : ((lib (.generatorYield (ptrOfPy a)) g).mem).fresh = false := by
        rw [hp (ptrOfPy a) g]; exact hf
      have hcall : Generator.callOf selfPtr g a = .generatorYield (ptrOfPy a) := by
        simp [Generator.callOf, hf]
      cases hl : lib (.generatorYield (ptrOfPy a)) g with
      | ret v m =>
        have hm : m.fresh = false := by rw [hl] at hfmem; exact hfmem
        simp [nextTrace, Generator.next, hd, hcall, hl, genNextCalls_cons, isGenNext, ih m hm]
      | exn m =>
        have hm : m.fresh = false := by rw [hl] at hfmem; exact hfmem
        have hrec := ih { m with dead := true } hm
        simp [nextTrace, Generator.next, hd, hcall, hl, genNextCalls_cons, isGenNext, hrec]

/-! Claim theorems. -/

/-- C1: for every generator whose `dead` flag is set, every `next` call —
for any argument, any library behaviour and any number of repeated calls —
returns the `None` sentinel immediately, makes no library call (so no
context switch into the generator), and leaves the descriptor unchanged;
`next` is total here, so no exception is raised on this path. -/
theorem next_dead_exhausted (selfPtr : Ptr) (lib : Lib) (g : GeneratorStruct)
    (h : g.dead = true) (args : List (Option Nat)) :
    nextTrace selfPtr lib g args = (g, args.map fun _ => (none, none)) :=
  nextTrace_dead selfPtr lib g h args

/-- Witness for C1 at a concrete dead descriptor and argument list. -/
theorem next_dead_exhausted_witness :
    (⟨false, true, 3, 100, 7⟩ : GeneratorStruct).dead = true ∧
      nextTrace 140000 libRet7 ⟨false, true, 3, 100, 7⟩ [none, some 42, some 0] =
        (⟨false, true, 3, 100, 7⟩, [(none, none), (none, none), (none, none)]) :=
  ⟨rfl, next_dead_exhausted 140000 libRet7 ⟨false, true, 3, 100, 7⟩ rfl
    [none, some 42, some 0]⟩

/-- C2: along any sequence of system operations, once the `dead` flag is
set it is never cleared again: no operation of the system resets it. -/
theorem dead_monotone (g g' : GeneratorStruct)
    (h : Relation.ReflTransGen SysStep g g') (hd : g.dead = true) : g'.dead = true := by
  induction h with
  | refl => exact hd
  | tail _ step ih =>
    cases step with
    | nextCall selfPtr arg lib g₁ => simp [Generator.next, ih]
    | entryFinallyMarkDead g₁ => rfl
    | libClearFresh g₁ => simpa using ih
    | libFinishMarkDead g₁ => rfl
    | libSaveRsp g₁ p => simpa using ih

/-- Witness for C2: a concrete dead descriptor stays dead across a
library stack-pointer write followed by a `next` call. -/
theorem dead_monotone_witness :
    ((Generator.next 140000 ⟨false, true, 5, 100, 7⟩ (some 3) libRet7).gen).dead = true :=
  dead_monotone ⟨false, true, 0, 100, 7⟩ _
    (Relation.ReflTransGen.tail
      (Relation.ReflTransGen.single (SysStep.libSaveRsp ⟨false, true, 0, 100, 7⟩ 5))
      (SysStep.nextCall 140000 (some 3) libRet7 ⟨false, true, 5, 100, 7⟩))
    rfl

/-- C3 counterexample: on the very first `next` call with no argument
(`arg = None`), the value delivered to the entry launcher is a pointer to
the descriptor itself (`ctypes.byref(self)`), not the null value the
caller passed — the first argument is replaced, contradicting the claim
that it is never discarded or replaced. -/
theorem entry_arg_replaced_cex :
    (Generator.next 140000 freshG none libW).call = some (.generatorNext 140000 140000) ∧
    ptrOfPy none = 0 ∧ (140000 : Ptr) ≠ 0 := by
  exact ⟨rfl, rfl, by decide⟩

/-- C3 amended: the entry function is launched exactly once, by the first
`next` call, and the value delivered to it is the first call's argument
when that argument is non-null, but a pointer to the descriptor itself
when the argument is `None`.  The library behaviour missing from `src/`
is assumed as `ClearsFresh`/`PreservesFresh` (modelled from the spec). -/
theorem entry_invoked_once (selfPtr : Ptr) (lib : Lib) (g : GeneratorStruct)
    (hc : ClearsFresh lib) (hp : PreservesFresh lib)
    (hf : g.fresh = true) (hd : g.dead = false) (a : Option Nat) (args : List (Option Nat)) :
    (nextTrace selfPtr lib g (a :: args)).2.head?.map (fun rc => rc.2) =
      some (some (.generatorNext selfPtr (entryArg selfPtr a))) ∧
    genNextCalls (nextTrace selfPtr lib g (a :: args)).2 = 1 := by
  have hcall : Generator.callOf selfPtr g a = .generatorNext selfPtr (entryArg selfPtr a) := by
    simp [Generator.callOf, hf]
  have hdf : ¬g.dead = true := by simp [hd]
  have hfmem : ((lib (.generatorNext selfPtr (entryArg selfPtr a)) g).mem).fresh = false :=
    hc selfPtr (entryArg selfPtr a) g
  cases hl : lib (.generatorNext selfPtr (entryArg selfPtr a)) g with
  | ret v m =>
    have hm : m.fresh = false := by rw [hl] at hfmem; exact hfmem
    constructor
    · simp [nextTrace, Generator.next, hdf, hcall, hl]
    · simp [nextTrace, Generator.next, hdf, hcall, hl, genNextCalls_cons, isGenNext,
        genNextCalls_zero_of_not_fresh selfPtr lib hp args m hm]
  | exn m =>
    have hm : m.fresh = false := by rw [hl] at hfmem; exact hfmem
    constructor
    · simp [nextTrace, Generator.next, hdf, hcall, hl]
    · simp [nextTrace, Generator.next, hdf, hcall, hl, genNextCalls_cons, isGenNext,
        genNextCalls_zero_of_not_fresh selfPtr lib hp args { m with dead := true } hm]

/-- Witness for the amended C3 at a concrete fresh descriptor, library and
argument list. -/
theorem entry_invoked_once_witness :
    ClearsFresh libW ∧ PreservesFresh libW ∧ freshG.fresh = true ∧ freshG.dead = false ∧
    ((nextTrace 140000 libW freshG [some 5, none]).2.head?.map (fun rc => rc.2) =
        some (some (.generatorNext 140000 5)) ∧
      genNextCalls (nextTrace 140000 libW freshG [some 5, none]).2 = 1) :=
  ⟨fun _ _ _ => rfl, fun _ _ => rfl, rfl, rfl,
    entry_invoked_once 140000 libW freshG (fun _ _ _ => rfl) (fun _ _ => rfl) rfl rfl
      (some 5) [none]⟩

/-- C4 counterexample: on a descriptor that is neither fresh nor dead
(the code's only representation of a running or suspended generator),
`next` does not report any error: it performs the
`python_generator_yield` switch and returns the plain transferred value —
there is no `ReentrantResume` anywhere in the code. -/
theorem reentrant_resume_cex :
    Generator.next 140000 gSusp (some 5) libRet7 =
      ⟨gSusp, some 7, some (.generatorYield 5)⟩ := by
  decide

/-- C4 amended: the code has no `Running` state and performs no reentrancy
check: for every descriptor that is neither fresh nor dead, `next`
unconditionally makes the `python_generator_yield` switch (no error value
of any kind is produced). -/
theorem next_nonfresh_always_switches (selfPtr : Ptr) (g : GeneratorStruct)
    (arg : Option Nat) (lib : Lib) (hf : g.fresh = false) (hd : g.dead = false) :
    (Generator.next selfPtr g arg lib).call = some (.generatorYield (ptrOfPy arg)) := by
  have hcall : Generator.callOf selfPtr g arg = .generatorYield (ptrOfPy arg) := by
    simp [Generator.callOf, hf]
  unfold Generator.next
  rw [hd, hcall]
  cases lib (.generatorYield (ptrOfPy arg)) g <;> rfl

/-- Witness for the amended C4 at a concrete descriptor. -/
theorem next_nonfresh_always_switches_witness :
    gSusp.fresh = false ∧ gSusp.dead = false ∧
    (Generator.next 140000 gSusp (some 5) libRet7).call = some (.generatorYield 5) :=
  ⟨rfl, rfl, next_nonfresh_always_switches 140000 gSusp (some 5) libRet7 rfl rfl⟩

/-- C5 counterexample: when the library call raises, the resumer receives
the plain `None` sentinel — exactly the value returned for an exhausted
generator — so no distinguished `GeneratorFailed(cause)` result carrying
the cause exists; the failure is indistinguishable from exhaustion. -/
theorem generator_failed_cex :
    (Generator.next 140000 gSusp (some 5) libRaise).ret = none ∧
    (Generator.next 140000 gDeadC (some 5) libRaise).ret = none := by
  decide

/-- C5 amended: a failure escaping the library call is caught at the
`next` boundary and the generator is marked dead, but the resumer receives
the plain `None` sentinel (identical to the exhausted sentinel), not a
distinguished failure result carrying the cause. -/
theorem next_failure_plain_sentinel (selfPtr : Ptr) (g : GeneratorStruct)
    (arg : Option Nat) (lib : Lib) (m : GeneratorStruct) (hd : g.dead = false)
    (hx : lib (Generator.callOf selfPtr g arg) g = .exn m) :
    Generator.next selfPtr g arg lib =
      ⟨{ m with dead := true }, none, some (Generator.callOf selfPtr g arg)⟩ := by
  simp [Generator.next, hd, hx]

/-- Witness for the amended C5 at a concrete descriptor and raising
library. -/
theorem next_failure_plain_sentinel_witness :
    gSusp.dead = false ∧
    libRaise (Generator.callOf 140000 gSusp (some 5)) gSusp = .exn gSusp ∧
    Generator.next 140000 gSusp (some 5) libRaise =
      ⟨{ gSusp with dead := true }, none, some (Generator.callOf 140000 gSusp (some 5))⟩ :=
  ⟨rfl, rfl, next_failure_plain_sentinel 140000 gSusp (some 5) libRaise gSusp rfl rfl⟩

/-- C6: construction initialises the descriptor in the fresh state
(`fresh = True`, `dead = False`), records the allocated stack's base
address, zeroes `rsp`, and makes no library call — no part of the entry
function runs. -/
theorem create_fresh_state (funcPtr stackBase : Ptr) :
    (Generator.init funcPtr stackBase).gen.fresh = true ∧
    (Generator.init funcPtr stackBase).gen.dead = false ∧
    (Generator.init funcPtr stackBase).gen.stack_base = stackBase ∧
    (Generator.init funcPtr stackBase).gen.rsp = 0 ∧
    (Generator.init funcPtr stackBase).calls = [] :=
  ⟨rfl, rfl, rfl, rfl, rfl⟩

/-- C7 counterexample: `STACK_CAPACITY` (1024 pages) is defined but never
used by construction — with the common 4096-byte page, the capacity it
prescribes is 4194304 bytes while `Generator.__init__` always allocates a
fixed 8192-byte stack, so the allocated capacity is not the page-aligned
default the claim describes (and `__init__` takes no stack-size option). -/
theorem stack_capacity_unused_cex :
    (Generator.init 77 1000).stackSize = 8192 ∧ STACK_CAPACITY 4096 = 4194304 ∧
    (Generator.init 77 1000).stackSize ≠ STACK_CAPACITY 4096 := by
  decide

/-- C7 amended: generator construction accepts no stack-size
configuration and always allocates a fixed 8192-byte stack; the
page-aligned `STACK_CAPACITY` constant is unused by construction. -/
theorem stack_size_fixed_8192 (funcPtr stackBase : Ptr) :
    (Generator.init funcPtr stackBase).stackSize = 8192 := rfl

/-- C8 counterexample: a resume during which the generator body finishes
returns without raising, yet the descriptor's `dead` field changes from
`false` to `true` during the call (the body's cleanup wrote it through the
descriptor pointer) — so `next` does not leave every field unchanged. -/
theorem next_frame_cex :
    libFinish (.generatorYield 5) gSusp = .ret 0 { gSusp with dead := true } ∧
    gSusp.dead = false ∧
    (Generator.next 140000 gSusp (some 5) libFinish).gen.dead = true := by
  decide

/-- C8 amended: for a descriptor that is neither fresh nor dead, when the
library call returns without raising and without itself writing the
descriptor, `next` leaves every field unchanged and only passes the
transfer value through; the Python code of `next` adds no writes of its
own on this path. -/
theorem next_frame_preserved (selfPtr : Ptr) (g : GeneratorStruct) (arg : Option Nat)
    (lib : Lib) (v : Ptr) (hf : g.fresh = false) (hd : g.dead = false)
    (hr : lib (.generatorYield (ptrOfPy arg)) g = .ret v g) :
    Generator.next selfPtr g arg lib = ⟨g, pyOfPtr v, some (.generatorYield (ptrOfPy arg))⟩ := by
  have hcall : Generator.callOf selfPtr g arg = .generatorYield (ptrOfPy arg) := by
    simp [Generator.callOf, hf]
  simp [Generator.next, hd, hcall, hr]

/-- Witness for the amended C8 at a concrete descriptor and
non-mutating library. -/
theorem next_frame_preserved_witness :
    gSusp.fresh = false ∧ gSusp.dead = false ∧
    libEcho9 (.generatorYield 5) gSusp = .ret 9 gSusp ∧
    Generator.next 140000 gSusp (some 5) libEcho9 =
      ⟨gSusp, some 9, some (.generatorYield 5)⟩ :=
  ⟨rfl, rfl, rfl, next_frame_preserved 140000 gSusp (some 5) libEcho9 9 rfl rfl rfl⟩

/-- C9: if the library call inside `next` raises, `next` marks the
generator dead and returns the `None` sentinel, and every later sequence
of `next` calls — any arguments, any library — returns `None` each time
without any further library call. -/
theorem next_exn_marks_dead_forever (selfPtr : Ptr) (g : GeneratorStruct)
    (arg : Option Nat) (lib : Lib) (m : GeneratorStruct) (hd : g.dead = false)
    (hx : lib (Generator.callOf selfPtr g arg) g = .exn m) :
    (Generator.next selfPtr g arg lib).gen.dead = true ∧
    (Generator.next selfPtr g arg lib).ret = none ∧
    ∀ (lib2 : Lib) (args : List (Option Nat)),
      nextTrace selfPtr lib2 (Generator.next selfPtr g arg lib).gen args =
        ((Generator.next selfPtr g arg lib).gen, args.map fun _ => (none, none)) := by
  have hnext : Generator.next selfPtr g arg lib =
      ⟨{ m with dead := true }, none, some (Generator.callOf selfPtr g arg)⟩ := by
    simp [Generator.next, hd, hx]
  refine ⟨by rw [hnext], by rw [hnext], ?_⟩
  intro lib2 args
  exact nextTrace_dead selfPtr lib2 _ (by rw [hnext]) args

/-- Witness for C9 at a concrete descriptor, raising library, and a
concrete follow-up call sequence. -/
theorem next_exn_marks_dead_forever_witness :
    gSusp.dead = false ∧
    libRaise (Generator.callOf 140000 gSusp (some 5)) gSusp = .exn gSusp ∧
    (Generator.next 140000 gSusp (some 5) libRaise).gen.dead = true ∧
    (Generator.next 140000 gSusp (some 5) libRaise).ret = none ∧
    nextTrace 140000 libRet7 (Generator.next 140000 gSusp (some 5) libRaise).gen
        [none, some 3] =
      ((Generator.next 140000 gSusp (some 5) libRaise).gen, [(none, none), (none, none)]) :=
  ⟨rfl, rfl,
    (next_exn_marks_dead_forever 140000 gSusp (some 5) libRaise gSusp rfl rfl).1,
    (next_exn_marks_dead_forever 140000 gSusp (some 5) libRaise gSusp rfl rfl).2.1,
    (next_exn_marks_dead_forever 140000 gSusp (some 5) libRaise gSusp rfl rfl).2.2
      libRet7 [none, some 3]⟩

/-- C10: for a descriptor that is neither fresh nor dead, `next 0` and
`next None` marshal to the same `NULL` transfer value
(`ctypes.c_void_p(0)` is the null pointer, as is passing `None`), so the
two calls make the same library call and produce identical results. -/
theorem next_zero_eq_next_none (selfPtr : Ptr) (g : GeneratorStruct) (lib : Lib)
    (hf : g.fresh = false) (_hd : g.dead = false) :
    Generator.next selfPtr g (some 0) lib = Generator.next selfPtr g none lib := by
  have hcall : Generator.callOf selfPtr g (some 0) = Generator.callOf selfPtr g none := by
    simp [Generator.callOf, hf, ptrOfPy]
  unfold Generator.next
  rw [hcall]

/-- Witness for C10 at a concrete descriptor and library. -/
theorem next_zero_eq_next_none_witness :
    gSusp.fresh = false ∧ gSusp.dead = false ∧
    Generator.next 140000 gSusp (some 0) libRet7 = Generator.next 140000 gSusp none libRet7 :=
  ⟨rfl, rfl, next_zero_eq_next_none 140000 gSusp libRet7 rfl rfl⟩
